import Mathlib

/-
Verification of the token-ledger client (src/main.py) against its design
specification.  The Python source is shallowly embedded: byte strings
become `List Nat`, JSON bodies become association lists, and the HTTP
layer becomes an explicit environment function from requests to
responses.  Library primitives that live outside the repository (the
solders/solana SDK: ed25519 keys and signatures, sha256, the base58
rendering of public keys, the versioned-transaction wire format) are
modelled as explicit executable functions; their doc comments say so.
-/

set_option autoImplicit false
set_option linter.unusedVariables false
set_option maxRecDepth 100000

namespace RWA

/-- Byte strings are lists of naturals; each entry stands for one byte. -/
abbrev Bytes := List Nat

/-- Public keys (solders `Pubkey`) are opaque 32-byte values. -/
abbrev Pubkey := Bytes

/-- JSON scalar values occurring in the request and response bodies of
src/main.py: strings and (Python arbitrary-precision) integers. -/
inductive JVal where
  | s (v : String)
  | n (v : Int)
  deriving DecidableEq

/-- An HTTP request as issued by the `requests` library calls in
src/main.py.  `timeout` mirrors the `timeout` keyword argument of
`requests.post` / `requests.get`; the source never passes one, so every
request the client builds carries `timeout = none` (the `requests`
default, which blocks without bound). -/
structure Request where
  url : String
  body : List (String × JVal)
  timeout : Option Nat
  deriving DecidableEq

/-- An HTTP response: its status code and its parsed JSON body. -/
structure HttpResponse where
  status : Nat
  body : List (String × JVal)

/-- Success predicate on a response, mirroring `requests.Response.ok`
(literally `status_code < 400`). -/
def HttpResponse.ok (r : HttpResponse) : Bool :=
  r.status < 400

/-- The network environment: what the remote service answers to each
request.  src/main.py's functions are embedded as functions of this
environment. -/
abbrev Env := Request → HttpResponse

/-- Python exceptions that the embedded functions can raise. -/
inductive PyErr where
  /-- `requests.exceptions.HTTPError` from `raise_for_status`. -/
  | httpError (status : Nat)
  /-- `KeyError` from a missing JSON field (`data["tx"]`). -/
  | keyError (k : String)
  /-- `TypeError` from passing a non-string to `base64.b64decode`. -/
  | typeError
  /-- `binascii.Error` from an undecodable base64 payload. -/
  | binasciiError
  /-- failure of `VersionedTransaction.from_bytes`. -/
  | deserializeError
  deriving DecidableEq

/-- Base URL of the builder service, from src/main.py line 19. -/
def BASE_URL : String := "http://168.119.187.186:5000"

/-- Build the request issued by `requests.post(f"{BASE_URL}/{route}", json=body)`:
no `timeout` keyword is passed in the source, so the request carries none. -/
def mkPost (route : String) (body : List (String × JVal)) : Request :=
  ⟨BASE_URL ++ "/" ++ route, body, none⟩

/-- Build the request issued by `requests.get(f"{BASE_URL}/{route}")`:
again the source passes no `timeout`. -/
def mkGet (route : String) : Request :=
  ⟨BASE_URL ++ "/" ++ route, [], none⟩

/-- Embedding of `Response.raise_for_status`: the `requests` library
raises `HTTPError` exactly for status codes in [400, 600). -/
def raise_for_status (r : HttpResponse) : Except PyErr Unit :=
  if 400 ≤ r.status ∧ r.status < 600 then .error (.httpError r.status) else .ok ()

/-- The standard base64 alphabet. -/
def b64Alphabet : List Char :=
  "ABCDEFGHIJKLMNOPQRSTUVWXYZabcdefghijklmnopqrstuvwxyz0123456789+/".toList

/-- Character of a 6-bit value in the base64 alphabet. -/
def b64chr (i : Nat) : Char :=
  b64Alphabet.getD i 'A'

/-- Value of a base64 character, `none` for characters outside the
alphabet (in particular for the padding character). -/
def b64val (ch : Char) : Option Nat :=
  b64Alphabet.indexOf? ch

/-- Encode a byte list in base64, three input bytes per four output
characters, with `=` padding; models `base64.b64encode`. -/
def b64encodeChars : Bytes → List Char
  | [] => []
  | [a] => [b64chr (a / 4), b64chr (a % 4 * 16), '=', '=']
  | [a, b] => [b64chr (a / 4), b64chr (a % 4 * 16 + b / 16), b64chr (b % 16 * 4), '=']
  | a :: b :: c :: rest =>
      b64chr (a / 4) :: b64chr (a % 4 * 16 + b / 16) :: b64chr (b % 16 * 4 + c / 64) ::
        b64chr (c % 64) :: b64encodeChars rest

/-- String form of the base64 encoding, as `base64.b64encode(..).decode("utf-8")`. -/
def b64encode (bs : Bytes) : String :=
  String.mk (b64encodeChars bs)

/-- Decode a base64 character list, four characters per group, honouring
`=` padding in the final group; models `base64.b64decode` on its
accepted inputs and fails (`none`) elsewhere. -/
def b64decodeChars : List Char → Option Bytes
  | [] => some []
  | [a, b, '=', '='] => do
      let x ← b64val a
      let y ← b64val b
      pure [x * 4 + y / 16]
  | [a, b, c, '='] => do
      let x ← b64val a
      let y ← b64val b
      let z ← b64val c
      pure [x * 4 + y / 16, y % 16 * 16 + z / 4]
  | a :: b :: c :: d :: rest => do
      let x ← b64val a
      let y ← b64val b
      let z ← b64val c
      let w ← b64val d
      let tail ← b64decodeChars rest
      pure ((x * 4 + y / 16) :: (y % 16 * 16 + z / 4) :: (z % 4 * 64 + w) :: tail)
  | _ => none

/-- Decode a base64 string to bytes. -/
def b64decode (s : String) : Option Bytes :=
  b64decodeChars s.toList

/-- The base58 alphabet used by solders to render public keys. -/
def b58Alphabet : List Char :=
  "123456789ABCDEFGHJKLMNPQRSTUVWXYZabcdefghijkmnopqrstuvwxyz".toList

/-- Base58 digits of a natural number, most significant first. -/
def natToB58Digits (n : Nat) : List Char :=
  if h : n = 0 then []
  else natToB58Digits (n / 58) ++ [b58Alphabet.getD (n % 58) '1']
termination_by n
decreasing_by
  exact Nat.div_lt_self (Nat.pos_of_ne_zero h) (by decide)

/-- Base58 rendering of a byte string (leading zero bytes become the
digit '1'); models `str(Pubkey)` from the solders library. -/
def b58encode (bs : Bytes) : String :=
  String.mk ((bs.takeWhile (fun b => b == 0)).map (fun _ => '1')
    ++ natToB58Digits (bs.foldl (fun a b => a * 256 + b) 0))

/-- Base58 string of a public key, as `str(payer.pubkey())` in src/main.py. -/
def Pubkey.toBase58 (p : Pubkey) : String :=
  b58encode p

/-- Modelled library primitive: a 32-byte cryptographic digest standing
in for sha256 as used by program-derived-address computation.  The
model is an executable deterministic mixing function; no property
proved below depends on the concrete digest values, only on the digest
being a pure function of its input. -/
def hashDigest (bs : Bytes) : Bytes :=
  (List.range 32).map
    (fun i => (bs.foldl (fun a b => a * 131 + b + 1) 7 + i * 7919) % 256)

/-- Modelled library primitive: the ed25519 on-curve test used to
reject program-derived-address candidates that correspond to real
keypairs.  Executable stand-in; only its Bool-valued purity matters to
the properties below. -/
def isOnCurve (p : Bytes) : Bool :=
  p.headD 0 % 2 == 0

/-- A signing keypair (solders `Keypair`), owned by the key manager;
the public key is derived from the secret. -/
structure Keypair where
  secret : Bytes
  deriving DecidableEq

/-- Modelled library primitive: ed25519 public-key derivation,
`Keypair.pubkey()` in solders.  Executable deterministic stand-in
producing a 32-byte value. -/
def Keypair.pubkey (kp : Keypair) : Pubkey :=
  (List.range 32).map
    (fun i => (kp.secret.foldl (fun a b => a * 37 + b + 5) 11 + i * 101) % 256)

/-- Modelled library primitive: an ed25519 detached signature (64
bytes) over a message, `Keypair.sign_message` in solders.  Executable
deterministic stand-in; the properties below use only its determinism
and its 64-byte length. -/
def edSign (kp : Keypair) (msg : Bytes) : Bytes :=
  (List.range 64).map
    (fun i =>
      (kp.secret.foldl (fun a b => a * 31 + b + 1) 3
        + msg.foldl (fun a b => a * 33 + b + 1) 9 + i * 59) % 256)

/-- The seed marker appended by program-derived-address hashing. -/
def pdaMarker : Bytes :=
  "ProgramDerivedAddress".toList.map Char.toNat

/-- Candidate address for a given bump: digest of seeds, bump byte,
program id and the PDA marker, following the derivation described in
the spec (section 4.2) and implemented by solders
`Pubkey.find_program_address`. -/
def pdaCandidate (seeds : List Bytes) (pid : Pubkey) (bump : Nat) : Pubkey :=
  hashDigest (seeds.flatten ++ [bump] ++ pid ++ pdaMarker)

/-- Bump search of program-derived-address derivation: try the given
bump; if the candidate is on-curve, decrement, failing after bump 0. -/
def findProgramAddressFrom (seeds : List Bytes) (pid : Pubkey) : Nat → Option (Pubkey × Nat)
  | 0 =>
      if isOnCurve (pdaCandidate seeds pid 0) then none
      else some (pdaCandidate seeds pid 0, 0)
  | b + 1 =>
      if isOnCurve (pdaCandidate seeds pid (b + 1)) then findProgramAddressFrom seeds pid b
      else some (pdaCandidate seeds pid (b + 1), b + 1)

/-- Embedding of solders `Pubkey.find_program_address` (used at
src/main.py lines 203-206): successive bumps from 255 downwards until
an off-curve candidate is found; `none` models the exhaustion error
after 256 attempts. -/
def find_program_address (seeds : List Bytes) (pid : Pubkey) : Option (Pubkey × Nat) :=
  findProgramAddressFrom seeds pid 255

/-- Modelled library constant: the SPL token program id.  An opaque
well-known 32-byte value; its concrete bytes affect no property proved
below. -/
def TOKEN_PROGRAM_ID : Pubkey :=
  List.replicate 32 6

/-- Modelled library constant: the associated-token-account program id. -/
def ASSOCIATED_TOKEN_PROGRAM_ID : Pubkey :=
  List.replicate 32 7

/-- Embedding of `spl.token.instructions.get_associated_token_address`
(src/main.py line 156): program-derived-address derivation over the
seed triple (owner, token program id, mint) under the associated-token
program id.  `none` models the (practically unreachable) exhaustion
error raised by the library. -/
def get_associated_token_address (owner mint : Pubkey) : Option Pubkey :=
  (find_program_address [owner, TOKEN_PROGRAM_ID, mint] ASSOCIATED_TOKEN_PROGRAM_ID).map
    (fun r => r.1)

/-- A versioned transaction (solders `VersionedTransaction`): its
message bytes, treated as opaque by the client, and its signature
list. -/
structure VersionedTransaction where
  message : Bytes
  signatures : List Bytes
  deriving DecidableEq

/-- Wire serialization of a versioned transaction, `bytes(signed_tx)`
at src/main.py line 62: the shortvec signature count (a single byte
for the counts below 128 this client produces), the 64-byte
signatures, then the message bytes. -/
def VersionedTransaction.toBytes (tx : VersionedTransaction) : Bytes :=
  tx.signatures.length :: (tx.signatures.flatten ++ tx.message)

/-- Split off `n` signatures of 64 bytes each from the front of a byte
string, returning them and the remaining message bytes. -/
def takeSigs : Nat → Bytes → Option (List Bytes × Bytes)
  | 0, bs => some ([], bs)
  | n + 1, bs =>
      if bs.length < 64 then none
      else
        match takeSigs n (bs.drop 64) with
        | none => none
        | some (sigs, rest) => some (bs.take 64 :: sigs, rest)

/-- Embedding of solders `VersionedTransaction.from_bytes`
(src/main.py line 55): parse the signature count, the signatures, and
take the remainder as the message. -/
def VersionedTransaction.from_bytes : Bytes → Option VersionedTransaction
  | [] => none
  | n :: rest =>
      match takeSigs n rest with
      | none => none
      | some (sigs, msg) => some ⟨msg, sigs⟩

/-- Embedding of `VersionedTransaction(tx.message, [payer])` at
src/main.py line 60: a transaction over the original message whose
signer list is exactly the supplied keypair, i.e. whose signature list
is that keypair's signature over the message. -/
def signTransaction (tx : VersionedTransaction) (payer : Keypair) : VersionedTransaction :=
  ⟨tx.message, [edSign payer tx.message]⟩

/-- Embedding of `fetch_unsigned` (src/main.py lines 49-55): POST the
body to the route, raise on an HTTP error status, read the `tx` field,
base64-decode it and deserialize a versioned transaction. -/
def fetch_unsigned (env : Env) (route : String) (body : List (String × JVal)) :
    Except PyErr VersionedTransaction :=
  let res := env (mkPost route body)
  match raise_for_status res with
  | .error e => .error e
  | .ok _ =>
      match res.body.lookup "tx" with
      | none => .error (.keyError "tx")
      | some (.n _) => .error .typeError
      | some (.s txb64) =>
          match b64decode txb64 with
          | none => .error .binasciiError
          | some tx_bytes =>
              match VersionedTransaction.from_bytes tx_bytes with
              | none => .error .deserializeError
              | some tx => .ok tx

/-- The broadcast request built by `sign_and_broadcast` (src/main.py
lines 60-64): the signed transaction serialized and base64-encoded
into the `tx` field, POSTed to the `broadcast` route. -/
def broadcastRequest (tx : VersionedTransaction) (payer : Keypair) : Request :=
  mkPost "broadcast"
    [("tx", JVal.s (b64encode (VersionedTransaction.toBytes (signTransaction tx payer))))]

/-- Embedding of `sign_and_broadcast` (src/main.py lines 58-66): sign
the fetched message, serialize and base64-encode, POST to `broadcast`,
raise on an HTTP error status, and return `res.json().get("sig")`
(`none` when the response lacks a `sig` field, as `dict.get` does). -/
def sign_and_broadcast (env : Env) (tx : VersionedTransaction) (payer : Keypair) :
    Except PyErr (Option JVal) :=
  let res := env (broadcastRequest tx payer)
  match raise_for_status res with
  | .error e => .error e
  | .ok _ => .ok (res.body.lookup "sig")

/-- Request body built by `create_user` (src/main.py lines 70-76). -/
def createUserBody (payer : Keypair) (user_id_b64 : String) : List (String × JVal) :=
  [("payer_pubkey", JVal.s (Pubkey.toBase58 (Keypair.pubkey payer))),
   ("user_id", JVal.s user_id_b64)]

/-- Request body built by `mint_to_treasury` (src/main.py lines 81-88). -/
def mintBody (payer : Keypair) (mint_pubkey : String) (amount : Int) : List (String × JVal) :=
  [("payer_pubkey", JVal.s (Pubkey.toBase58 (Keypair.pubkey payer))),
   ("mint_pubkey", JVal.s mint_pubkey),
   ("amount", JVal.n amount)]

/-- Request body built by `transfer_from_treasury` (src/main.py lines
100-108); note that both `from_id` and `to_id` are set to the single
`user_id_b64` argument. -/
def transferBody (payer : Keypair) (mint_pubkey user_id_b64 : String) (amount : Int)
    (treasury_account user_token_account : String) : List (String × JVal) :=
  [("payer_pubkey", JVal.s (Pubkey.toBase58 (Keypair.pubkey payer))),
   ("mint_pubkey", JVal.s mint_pubkey),
   ("from_id", JVal.s user_id_b64),
   ("to_id", JVal.s user_id_b64),
   ("amount", JVal.n amount),
   ("from_token_account", JVal.s treasury_account),
   ("to_token_account", JVal.s user_token_account)]

/-- Request body built by `deposit_to_user` (src/main.py lines
120-126); the `treasury_account` parameter of the Python function is
not part of the body. -/
def depositBody (payer : Keypair) (mint_pubkey user_id_b64 : String) (amount : Int)
    (user_token_account : String) : List (String × JVal) :=
  [("payer_pubkey", JVal.s (Pubkey.toBase58 (Keypair.pubkey payer))),
   ("mint_pubkey", JVal.s mint_pubkey),
   ("user_id", JVal.s user_id_b64),
   ("amount", JVal.n amount),
   ("user_token_account", JVal.s user_token_account)]

/-- The fetch-sign-broadcast pipeline shared by all mutating
operations: fetch the unsigned transaction for the route and body,
then sign and broadcast it, propagating any error. -/
def runPipeline (env : Env) (route : String) (body : List (String × JVal)) (payer : Keypair) :
    Except PyErr (Option JVal) :=
  match fetch_unsigned env route body with
  | .error e => .error e
  | .ok tx => sign_and_broadcast env tx payer

/-- Embedding of `create_user` (src/main.py lines 69-77). -/
def create_user (env : Env) (user_id_b64 : String) (payer : Keypair) :
    Except PyErr (Option JVal) :=
  match fetch_unsigned env "create_user" (createUserBody payer user_id_b64) with
  | .error e => .error e
  | .ok tx => sign_and_broadcast env tx payer

/-- Embedding of `mint_to_treasury` (src/main.py lines 80-89). -/
def mint_to_treasury (env : Env) (amount : Int) (payer : Keypair) (mint_pubkey : String) :
    Except PyErr (Option JVal) :=
  match fetch_unsigned env "mint" (mintBody payer mint_pubkey amount) with
  | .error e => .error e
  | .ok tx => sign_and_broadcast env tx payer

/-- Embedding of `transfer_from_treasury` (src/main.py lines 92-109). -/
def transfer_from_treasury (env : Env) (user_id_b64 : String) (amount : Int) (payer : Keypair)
    (mint_pubkey treasury_account user_token_account : String) :
    Except PyErr (Option JVal) :=
  match fetch_unsigned env "transfer"
      (transferBody payer mint_pubkey user_id_b64 amount treasury_account user_token_account) with
  | .error e => .error e
  | .ok tx => sign_and_broadcast env tx payer

/-- Embedding of `deposit_to_user` (src/main.py lines 112-127). -/
def deposit_to_user (env : Env) (user_id_b64 : String) (amount : Int) (payer : Keypair)
    (mint_pubkey treasury_account user_token_account : String) :
    Except PyErr (Option JVal) :=
  match fetch_unsigned env "deposit"
      (depositBody payer mint_pubkey user_id_b64 amount user_token_account) with
  | .error e => .error e
  | .ok tx => sign_and_broadcast env tx payer

/-- Embedding of `balance_user` (src/main.py lines 130-136): POST the
user id, raise on an HTTP error status, return the JSON body. -/
def balance_user (env : Env) (user_id_b64 : String) :
    Except PyErr (List (String × JVal)) :=
  let res := env (mkPost "balance_user" [("user_id", JVal.s user_id_b64)])
  match raise_for_status res with
  | .error e => .error e
  | .ok _ => .ok res.body

/-- Embedding of `total_supply` (src/main.py lines 139-142). -/
def total_supply (env : Env) : Except PyErr (List (String × JVal)) :=
  let res := env (mkGet "total_supply")
  match raise_for_status res with
  | .error e => .error e
  | .ok _ => .ok res.body

/-- Embedding of `balance_treasury` (src/main.py lines 145-148). -/
def balance_treasury (env : Env) : Except PyErr (List (String × JVal)) :=
  let res := env (mkGet "balance_treasury")
  match raise_for_status res with
  | .error e => .error e
  | .ok _ => .ok res.body

/-- On-chain state seen through the network client: the set of
addresses at which an account exists. -/
structure ChainState where
  accounts : List Pubkey
  deriving DecidableEq

/-- Embedding of `client.get_account_info(ata).value` (src/main.py
lines 157-158): `none` when no account exists at the address. -/
def get_account_info (st : ChainState) (a : Pubkey) : Option Unit :=
  if a ∈ st.accounts then some () else none

/-- Modelled network effect of submitting the transaction built at
src/main.py lines 160-168: executing the
`create_associated_token_account(payer, owner, mint)` instruction
creates the associated token account of (owner, mint). -/
def send_create_ata (st : ChainState) (owner mint : Pubkey) : ChainState :=
  match get_associated_token_address owner mint with
  | some a => ⟨a :: st.accounts⟩
  | none => st

/-- Embedding of `get_or_create_associated_token_account` (src/main.py
lines 151-169): derive the associated token account of the payer and
mint, query the network for it, submit a creation transaction only
when it is absent, and return the derived address either way.  The
Bool records whether `client.send_transaction` ran; the outer `none`
models the library's derivation-exhaustion error. -/
def get_or_create_associated_token_account (st : ChainState) (payer : Keypair) (mint : Pubkey) :
    Option (Pubkey × ChainState × Bool) :=
  match get_associated_token_address (Keypair.pubkey payer) mint with
  | none => none
  | some ata =>
      match get_account_info st ata with
      | none => some (ata, send_create_ata st (Keypair.pubkey payer) mint, true)
      | some _ => some (ata, st, false)

/-- Embedding of `bytes.ljust` as used at src/main.py line 182: pad on
the right with the fill byte up to the width; inputs already at least
as long as the width are returned unchanged (no truncation). -/
def ljust (bs : Bytes) (width fill : Nat) : Bytes :=
  bs ++ List.replicate (width - bs.length) fill

/-- The user-identifier encoding of src/main.py lines 182-183: the
identifier's bytes, right-padded with zero bytes to width 32, then
base64-encoded for transport. -/
def encode_user_id (idBytes : Bytes) : String :=
  b64encode (ljust idBytes 32 0)

/-- Decidable equality of `Except` results, needed to evaluate the
embedded functions at concrete inputs. -/
instance {ε α : Type} [DecidableEq ε] [DecidableEq α] : DecidableEq (Except ε α)
  | .error a, .error b =>
      if h : a = b then .isTrue (by rw [h]) else .isFalse (by intro hc; cases hc; exact h rfl)
  | .error a, .ok b => .isFalse (by intro hc; cases hc)
  | .ok a, .error b => .isFalse (by intro hc; cases hc)
  | .ok a, .ok b =>
      if h : a = b then .isTrue (by rw [h]) else .isFalse (by intro hc; cases hc; exact h rfl)

/-- A network environment answering 404 to every request. -/
def env404 : Env := fun _ => ⟨404, []⟩

/-- A network environment answering success with a valid base64-encoded
unsigned transaction over the message bytes [1, 2, 3]. -/
def envTxW : Env :=
  fun _ => ⟨200, [("tx", JVal.s (b64encode (VersionedTransaction.toBytes ⟨[1, 2, 3], []⟩)))]⟩

/-- A network environment answering success with an empty `sig` field. -/
def envEmptySig : Env := fun _ => ⟨200, [("sig", JVal.s "")]⟩

/-- A network environment answering success with a non-empty `sig` field. -/
def envSigOk : Env := fun _ => ⟨200, [("sig", JVal.s "abc")]⟩

/-- A concrete unsigned transaction used to exercise the theorems. -/
def txW : VersionedTransaction := ⟨[1, 2, 3], []⟩

/-- A concrete keypair used to exercise the theorems. -/
def kpW : Keypair := ⟨[1, 2, 3]⟩

/-- A second concrete keypair. -/
def kpW2 : Keypair := ⟨[4, 5, 6]⟩

/-- A concrete mint address. -/
def mintW : Pubkey := List.replicate 32 9

/-- An empty chain state: no account exists anywhere. -/
def stEmpty : ChainState := ⟨[]⟩

/-- A chain state holding one unrelated account. -/
def stOtherW : ChainState := ⟨[List.replicate 32 1]⟩

/-- First run of account creation from the empty state. -/
def runW : Option (Pubkey × ChainState × Bool) :=
  get_or_create_associated_token_account stEmpty kpW mintW

/-- Address returned by the first run. -/
def ataCreatedW : Pubkey := (runW.map (fun r => r.1)).getD []

/-- Chain state after the first run. -/
def stAfterW : ChainState := (runW.map (fun r => r.2.1)).getD stEmpty

/-- Whether the first run submitted a creation transaction. -/
def sentW : Bool := (runW.map (fun r => r.2.2)).getD false

/-- The seed bytes b"treasury" used at src/main.py line 204. -/
def treasurySeed : Bytes := [116, 114, 101, 97, 115, 117, 114, 121]

/-- Concrete value of the treasury derivation at the witness inputs. -/
def pdaW : Pubkey :=
  [47, 30, 13, 252, 235, 218, 201, 184, 167, 150, 133, 116, 99, 82, 65, 48,
   31, 14, 253, 236, 219, 202, 185, 168, 151, 134, 117, 100, 83, 66, 49, 32]

/-- Concrete value of the associated-token-account derivation at the
witness inputs. -/
def ataW : Pubkey :=
  [255, 238, 221, 204, 187, 170, 153, 136, 119, 102, 85, 68, 51, 34, 17, 0,
   239, 222, 205, 188, 171, 154, 137, 120, 103, 86, 69, 52, 35, 18, 1, 240]

/-- A 64-byte signature as produced by the modelled ed25519 signer. -/
theorem edSign_length (kp : Keypair) (msg : Bytes) : (edSign kp msg).length = 64 := by
  simp [edSign]

/-- Parsing `n` signatures of 64 bytes each off the front of their
serialization recovers them and the trailing message. -/
theorem takeSigs_append (sigs : List Bytes) (msg : Bytes)
    (h : ∀ s ∈ sigs, s.length = 64) :
    takeSigs sigs.length (sigs.flatten ++ msg) = some (sigs, msg) := by
  induction sigs with
  | nil => rfl
  | cons s rest ih =>
      have hs : s.length = 64 := h s (List.mem_cons_self s rest)
      have hrest : ∀ t ∈ rest, t.length = 64 := fun t ht => h t (List.mem_cons_of_mem s ht)
      have hflat : (s :: rest).flatten ++ msg = s ++ (rest.flatten ++ msg) := by
        simp [List.flatten_cons, List.append_assoc]
      rw [List.length_cons, hflat, takeSigs]
      have hlen : ¬ (s ++ (rest.flatten ++ msg)).length < 64 := by
        rw [List.length_append, hs]
        omega
      rw [if_neg hlen]
      have hdrop : (s ++ (rest.flatten ++ msg)).drop 64 = rest.flatten ++ msg := by
        rw [← hs]
        exact List.drop_left s (rest.flatten ++ msg)
      have htake : (s ++ (rest.flatten ++ msg)).take 64 = s := by
        rw [← hs]
        exact List.take_left s (rest.flatten ++ msg)
      rw [hdrop, ih hrest]
      simp [htake]

/-- C1: for every fetched unsigned transaction and every keypair, the
signed transaction built by the signing step is bound to the original
message: decoding its wire bytes reproduces it exactly (hence its
message is byte-for-byte the unsigned transaction's message), and its
signer list is exactly the supplied keypair's signature over that
message. -/
theorem signing_binds_original_message (env : Env) (route : String)
    (body : List (String × JVal)) (tx : VersionedTransaction) (payer : Keypair)
    (hfetch : fetch_unsigned env route body = .ok tx) :
    VersionedTransaction.from_bytes (VersionedTransaction.toBytes (signTransaction tx payer))
      = some (signTransaction tx payer)
    ∧ (signTransaction tx payer).message = tx.message
    ∧ (signTransaction tx payer).signatures = [edSign payer tx.message] := by
  refine ⟨?_, rfl, rfl⟩
  have h64 : ∀ s ∈ [edSign payer tx.message], s.length = 64 := by
    intro s hs
    rw [List.mem_singleton] at hs
    rw [hs]
    exact edSign_length payer tx.message
  have hts := takeSigs_append [edSign payer tx.message] tx.message h64
  show VersionedTransaction.from_bytes
      ([edSign payer tx.message].length :: ([edSign payer tx.message].flatten ++ tx.message))
    = some (signTransaction tx payer)
  rw [VersionedTransaction.from_bytes, hts]
  rfl

/-- C1 witness: the round trip holds at a concretely fetched
transaction and keypair. -/
theorem signing_binds_original_message_witness :
    VersionedTransaction.from_bytes (VersionedTransaction.toBytes (signTransaction txW kpW2))
      = some (signTransaction txW kpW2)
    ∧ (signTransaction txW kpW2).message = txW.message
    ∧ (signTransaction txW kpW2).signatures = [edSign kpW2 txW.message] :=
  signing_binds_original_message envTxW "create_user" [] txW kpW2 (by decide)

/-- C2: for every route and request body (with the builder answering a
valid HTTP status below 600), a non-success response status makes
`fetch_unsigned` fail with the HTTP error raised by
`raise_for_status` (the embedding of `BuilderRejectedError`), and a
transaction value is returned only when the response status is a
success. -/
theorem fetch_rejects_non_success (env : Env) (route : String)
    (body : List (String × JVal))
    (hval : (env (mkPost route body)).status < 600) :
    ((env (mkPost route body)).ok = false →
      fetch_unsigned env route body
        = .error (.httpError (env (mkPost route body)).status))
    ∧ ∀ tx, fetch_unsigned env route body = .ok tx →
        (env (mkPost route body)).ok = true := by
  have key : (env (mkPost route body)).ok = false →
      fetch_unsigned env route body
        = .error (.httpError (env (mkPost route body)).status) := by
    intro hok
    have h400 : 400 ≤ (env (mkPost route body)).status := by
      simp only [HttpResponse.ok, decide_eq_false_iff_not, Nat.not_lt] at hok
      exact hok
    have hraise : raise_for_status (env (mkPost route body))
        = Except.error (PyErr.httpError (env (mkPost route body)).status) := by
      rw [raise_for_status, if_pos ⟨h400, hval⟩]
    simp only [fetch_unsigned, hraise]
  refine ⟨key, ?_⟩
  intro tx htx
  cases hok : (env (mkPost route body)).ok with
  | true => rfl
  | false =>
      rw [key hok] at htx
      cases htx

/-- C2 witness: a 404 response makes the fetch fail with the HTTP
error and yields no transaction. -/
theorem fetch_rejects_non_success_witness :
    fetch_unsigned env404 "create_user" [] = Except.error (PyErr.httpError 404) :=
  (fetch_rejects_non_success env404 "create_user" [] (by decide)).1 (by decide)

/-- C3: a second call of account creation right after a first call
observes the account the first call created (or found pre-existing),
submits no further creation transaction, leaves the chain unchanged,
and returns the same address; so two sequential calls submit at most
one creation transaction in total. -/
theorem ensure_account_idempotent (st : ChainState) (payer : Keypair) (mint : Pubkey)
    (ata : Pubkey) (st1 : ChainState) (sent : Bool)
    (h : get_or_create_associated_token_account st payer mint = some (ata, st1, sent)) :
    get_or_create_associated_token_account st1 payer mint = some (ata, st1, false) := by
  unfold get_or_create_associated_token_account at h ⊢
  cases hata : get_associated_token_address (Keypair.pubkey payer) mint with
  | none =>
      rw [hata] at h
      simp at h
  | some a =>
      rw [hata] at h
      cases hacc : get_account_info st a with
      | none =>
          simp only [hacc, Option.some.injEq, Prod.mk.injEq] at h
          obtain ⟨rfl, rfl, rfl⟩ := h
          have hmem : get_account_info (send_create_ata st (Keypair.pubkey payer) mint) a
              = some () := by
            simp [send_create_ata, hata, get_account_info]
          simp [hmem]
      | some u =>
          simp only [hacc, Option.some.injEq, Prod.mk.injEq] at h
          obtain ⟨rfl, rfl, rfl⟩ := h
          simp [hacc]

/-- C3 witness: starting from an empty chain, the call after the first
one is a no-op returning the first call's address. -/
theorem ensure_account_idempotent_witness :
    get_or_create_associated_token_account stAfterW kpW mintW
      = some (ataCreatedW, stAfterW, false) :=
  ensure_account_idempotent stEmpty kpW mintW ataCreatedW stAfterW sentW (by decide)

/-- C4 counterexample to the claim as stated: a success response whose
`sig` field is the empty string makes the broadcast step return that
empty confirmation id, so the returned id is not always non-empty on
success. -/
theorem broadcast_nonempty_sig_counterexample :
    (envEmptySig (broadcastRequest txW kpW2)).ok = true
    ∧ sign_and_broadcast envEmptySig txW kpW2 = Except.ok (some (JVal.s "")) := by
  exact ⟨rfl, by decide⟩

/-- C4 (amended): the broadcast step base64-encodes the wire bytes of
the signed transaction into the `tx` field of a POST to the
`broadcast` route, and on a success response returns exactly the
response's `sig` field; in particular the returned confirmation id is
non-empty whenever the response carries a non-empty `sig`. -/
theorem broadcast_returns_response_sig (env : Env) (tx : VersionedTransaction)
    (payer : Keypair)
    (hok : (env (broadcastRequest tx payer)).ok = true) :
    sign_and_broadcast env tx payer
      = .ok ((env (broadcastRequest tx payer)).body.lookup "sig")
    ∧ broadcastRequest tx payer
      = mkPost "broadcast"
          [("tx", JVal.s (b64encode (VersionedTransaction.toBytes (signTransaction tx payer))))]
    ∧ (∀ s, (env (broadcastRequest tx payer)).body.lookup "sig" = some (JVal.s s) →
        s ≠ "" → sign_and_broadcast env tx payer = .ok (some (JVal.s s))) := by
  have hlt : (env (broadcastRequest tx payer)).status < 400 := by
    simpa [HttpResponse.ok] using hok
  have hraise : raise_for_status (env (broadcastRequest tx payer)) = .ok () := by
    rw [raise_for_status, if_neg]
    omega
  have hmain : sign_and_broadcast env tx payer
      = .ok ((env (broadcastRequest tx payer)).body.lookup "sig") := by
    simp only [sign_and_broadcast, hraise]
  refine ⟨hmain, rfl, ?_⟩
  intro s hs hne
  rw [hmain, hs]

/-- C4 witness: with a success response carrying `sig = "abc"`, the
broadcast step returns that confirmation id and submits the
base64-encoded signed transaction to the broadcast route. -/
theorem broadcast_returns_response_sig_witness :
    sign_and_broadcast envSigOk txW kpW2
      = Except.ok ((envSigOk (broadcastRequest txW kpW2)).body.lookup "sig")
    ∧ broadcastRequest txW kpW2
      = mkPost "broadcast"
          [("tx", JVal.s (b64encode (VersionedTransaction.toBytes (signTransaction txW kpW2))))] :=
  ⟨(broadcast_returns_response_sig envSigOk txW kpW2 (by decide)).1,
   (broadcast_returns_response_sig envSigOk txW kpW2 (by decide)).2.1⟩

/-- C5: address derivation is deterministic; any two evaluations of
the program-derived-address computation at the same seeds and program
id, and of the associated-token-account computation at the same owner
and mint, return the same address and bump. -/
theorem derivation_deterministic (seeds : List Bytes) (pid : Pubkey)
    (owner mint : Pubkey) (r1 r2 : Option (Pubkey × Nat)) (a1 a2 : Option Pubkey)
    (h1 : find_program_address seeds pid = r1)
    (h2 : find_program_address seeds pid = r2)
    (h3 : get_associated_token_address owner mint = a1)
    (h4 : get_associated_token_address owner mint = a2) :
    r1 = r2 ∧ a1 = a2 :=
  ⟨h1.symm.trans h2, h3.symm.trans h4⟩

/-- C5 witness: two evaluations at the concrete treasury seeds and at
a concrete (owner, mint) pair agree, each returning the concrete
derived value. -/
theorem derivation_deterministic_witness :
    (some (pdaW, 254) : Option (Pubkey × Nat)) = some (pdaW, 254)
    ∧ (some ataW : Option Pubkey) = some ataW :=
  derivation_deterministic [treasurySeed, List.replicate 32 9] (List.replicate 32 8)
    (Keypair.pubkey kpW) mintW
    (some (pdaW, 254)) (some (pdaW, 254)) (some ataW) (some ataW)
    (by decide) (by decide) (by decide) (by decide)

/-- C6: whenever account creation returns, the returned address is the
deterministically derived associated-token-account address of the
payer and mint, and the same address is returned from any other chain
state, whatever the outcome of the existence check there. -/
theorem ensure_account_returns_derived_address (st st2 : ChainState) (payer : Keypair)
    (mint : Pubkey) (ata : Pubkey) (st1 : ChainState) (sent : Bool)
    (h : get_or_create_associated_token_account st payer mint = some (ata, st1, sent)) :
    get_associated_token_address (Keypair.pubkey payer) mint = some ata
    ∧ (get_or_create_associated_token_account st2 payer mint).map (fun r => r.1)
        = some ata := by
  unfold get_or_create_associated_token_account at h ⊢
  cases hata : get_associated_token_address (Keypair.pubkey payer) mint with
  | none =>
      rw [hata] at h
      simp at h
  | some a =>
      rw [hata] at h
      cases hacc : get_account_info st a with
      | none =>
          simp only [hacc, Option.some.injEq, Prod.mk.injEq] at h
          obtain ⟨rfl, -, -⟩ := h
          refine ⟨rfl, ?_⟩
          cases h2 : get_account_info st2 a <;> simp [h2]
      | some u =>
          simp only [hacc, Option.some.injEq, Prod.mk.injEq] at h
          obtain ⟨rfl, -, -⟩ := h
          refine ⟨rfl, ?_⟩
          cases h2 : get_account_info st2 a <;> simp [h2]

/-- C6 witness: at concrete inputs the returned address is the derived
associated-token-account address, also from a chain state holding an
unrelated account. -/
theorem ensure_account_returns_derived_address_witness :
    get_associated_token_address (Keypair.pubkey kpW) mintW = some ataCreatedW
    ∧ (get_or_create_associated_token_account stOtherW kpW mintW).map (fun r => r.1)
        = some ataCreatedW :=
  ensure_account_returns_derived_address stEmpty stOtherW kpW mintW
    ataCreatedW stAfterW sentW (by decide)

/-- C7: each mutating operation builds its operation-specific request
body and then runs the fetch-sign-broadcast pipeline unconditionally;
moreover the pipeline's continuation after the fetch depends on the
fetched transaction only through its message, so no operation inspects
or branches on the unsigned transaction's contents. -/
theorem operations_run_pipeline_unconditionally (env : Env) (payer : Keypair)
    (user_id_b64 : String) (amount : Int)
    (mint_pubkey treasury_account user_token_account : String) :
    create_user env user_id_b64 payer
      = runPipeline env "create_user" (createUserBody payer user_id_b64) payer
    ∧ mint_to_treasury env amount payer mint_pubkey
      = runPipeline env "mint" (mintBody payer mint_pubkey amount) payer
    ∧ transfer_from_treasury env user_id_b64 amount payer mint_pubkey
        treasury_account user_token_account
      = runPipeline env "transfer"
          (transferBody payer mint_pubkey user_id_b64 amount
            treasury_account user_token_account) payer
    ∧ deposit_to_user env user_id_b64 amount payer mint_pubkey
        treasury_account user_token_account
      = runPipeline env "deposit"
          (depositBody payer mint_pubkey user_id_b64 amount user_token_account) payer
    ∧ ∀ tx : VersionedTransaction,
        sign_and_broadcast env tx payer = sign_and_broadcast env ⟨tx.message, []⟩ payer :=
  ⟨rfl, rfl, rfl, rfl, fun tx => rfl⟩

/-- C8 counterexample to the claim as stated: a 33-byte identifier is
sent at length 33 (not truncated to 32 bytes), and a 1-byte identifier
is padded on the right with zero bytes, not on the left. -/
theorem user_id_padding_counterexample :
    (ljust (List.replicate 33 65) 32 0).length = 33
    ∧ ljust [97] 32 0 = 97 :: List.replicate 31 0
    ∧ ljust [97] 32 0 ≠ List.replicate 31 0 ++ [97] := by
  refine ⟨by decide, by decide, by decide⟩

/-- C8 (amended): for identifiers of at most 32 bytes, the
user-identifier value is exactly 32 bytes, obtained by right-padding
the identifier's bytes with zero bytes (longer identifiers pass
through unpadded and untruncated), and it is transport-encoded as
base64. -/
theorem user_id_right_padded (idBytes : Bytes) (h : idBytes.length ≤ 32) :
    (ljust idBytes 32 0).length = 32
    ∧ ljust idBytes 32 0 = idBytes ++ List.replicate (32 - idBytes.length) 0
    ∧ encode_user_id idBytes = b64encode (ljust idBytes 32 0) := by
  refine ⟨?_, rfl, rfl⟩
  simp [ljust]
  omega

/-- C8 witness: a 32-byte identifier is sent as exactly its own 32
bytes, base64-encoded. -/
theorem user_id_right_padded_witness :
    (ljust (List.replicate 32 97) 32 0).length = 32
    ∧ ljust (List.replicate 32 97) 32 0
        = List.replicate 32 97 ++ List.replicate (32 - (List.replicate 32 97).length) 0
    ∧ encode_user_id (List.replicate 32 97) = b64encode (ljust (List.replicate 32 97) 32 0) :=
  user_id_right_padded (List.replicate 32 97) (by decide)

/-- C9: every request the client builds, POST or GET, carries no
timeout at all, never a caller-configurable one; the source passes no
`timeout` argument to any `requests` call, so the claim's required
timeout does not exist and the calls may block indefinitely. -/
theorem requests_carry_no_timeout (route : String) (body : List (String × JVal)) :
    (mkPost route body).timeout = none ∧ (mkGet route).timeout = none :=
  ⟨rfl, rfl⟩

/-- C10: the request body sent by the transfer operation has its
`from_id` and `to_id` fields both equal to the single supplied user
identifier, so the client interface cannot express a transfer between
two distinct user identifiers. -/
theorem transfer_from_equals_to (payer : Keypair) (mint_pubkey user_id_b64 : String)
    (amount : Int) (treasury_account user_token_account : String) :
    (transferBody payer mint_pubkey user_id_b64 amount
        treasury_account user_token_account).lookup "from_id"
      = some (JVal.s user_id_b64)
    ∧ (transferBody payer mint_pubkey user_id_b64 amount
        treasury_account user_token_account).lookup "to_id"
      = some (JVal.s user_id_b64) := by
  constructor <;> rfl

end RWA
